import Mathlib

/-
  Shallow embedding of the inspark-a11y lesson-scan coordinator and the
  single-shot scan pipeline.

  Sources embedded here:
  * the lesson-scanning content script (the enhanced content script stored in
    src/extension/src/report-generator.js after the class ReportGenerator,
    lines 435-906): module state (lessonScanActive, currentScreen, screenData,
    lastUrl, lastTitle, screenChangeTimeout), detectScreenChange,
    scanCurrentScreen, processScanResults, mapSeverity, extractWcagLevel,
    handleStartLessonScan, handleStopLessonScan, getAllLessonIssues,
    generateLessonSummary, and the debounce pattern of startScreenMonitoring
    (namespace Lesson below);
  * the single-scan content script src/extension/src/content.js:
    performAccessibilityScan, runUiUxChecks, formatResults, mapImpact,
    axeTitle, uxTitle, truncate, simpleSelector (namespace Single below);
  * src/unnamed/part_001 (the enhanced config.js): the defaultSettings entry
    maxScreensPerLesson.

  Modelling conventions: JavaScript strings are String, counters are Nat,
  Date.now() readings and timer instants are Nat clock readings passed
  explicitly, the axe engine is an explicit outcome value (unavailable /
  callback error / results), and the live DOM visible to a scan is a Page
  value (url, title, axe outcome, clock).  Fields computed from the live DOM
  that no claim touches (getDetailedLocation's heading/landmark walk, the
  node.element reference) are not carried.  Asynchronous callbacks are
  modelled by the synchronous state transformation they perform, in delivery
  order; the event loop never runs two scans concurrently (single timeout
  slot, scans serialized), which the source relies on as well.
-/

namespace Lesson

/-- One axe result node: `{ html, target }` as consumed by
`processScanResults` (node.target is an array of selector strings). -/
structure RawNode where
  html : String
  target : List String
deriving DecidableEq, Repr

/-- One axe violation as consumed by `processScanResults`:
`{ id, impact, help, description, tags, helpUrl, nodes }`. -/
structure Violation where
  id : String
  impact : String
  help : String
  description : String
  tags : List String
  helpUrl : String
  nodes : List RawNode
deriving DecidableEq, Repr

/-- The axe results object: `{ violations: [...] }`. -/
structure AxeResults where
  violations : List Violation
deriving DecidableEq, Repr

/-- `getScreenInfo()`'s shape: screenNumber, title, url, timestamp, selector.
`timestamp` (an ISO string in the source) is modelled as the clock reading. -/
structure ScreenInfo where
  screenNumber : Nat
  title : String
  url : String
  timestamp : Nat
  selector : String
deriving DecidableEq, Repr

/-- `mapSeverity(impact)`: identity on the four engine impact values,
anything else falls back to moderate. -/
def mapSeverity (impact : String) : String :=
  if impact = "critical" then "critical"
  else if impact = "serious" then "serious"
  else if impact = "moderate" then "moderate"
  else if impact = "minor" then "minor"
  else "moderate"

/-- `extractWcagLevel(tags)`: first matching WCAG tag wins. -/
def extractWcagLevel (tags : List String) : String :=
  if tags.contains "wcag22aa" then "WCAG 2.2 AA"
  else if tags.contains "wcag21aa" then "WCAG 2.1 AA"
  else if tags.contains "wcag2aa" then "WCAG 2.0 AA"
  else if tags.contains "wcag2a" then "WCAG 2.0 A"
  else "WCAG"

/-- The `screenInfo` sub-record stored inside each issue by
`processScanResults`. -/
structure IssueScreenInfo where
  screenNumber : Nat
  title : String
  url : String
  timestamp : Nat
deriving DecidableEq, Repr

/-- The issue record assembled by `processScanResults` (the `location`
field, computed by getDetailedLocation from the live DOM, is not carried). -/
structure Issue where
  id : String
  title : String
  description : String
  severity : String
  category : String
  type : String
  wcagLevel : String
  element : String
  selector : String
  wcagReference : String
  screenInfo : IssueScreenInfo
  isLessonResult : Bool
deriving DecidableEq, Repr

/-- The id template literal of `processScanResults`:
`${violation.id}-${node.target.join('-')}-${screenInfo.screenNumber}-${Date.now()}`.
`now` is the Date.now() reading at normalization time. -/
def issueId (violationId : String) (target : List String)
    (screenNumber : Nat) (now : Nat) : String :=
  violationId ++ "-" ++ String.intercalate "-" target ++ "-"
    ++ toString screenNumber ++ "-" ++ toString now

/-- One issue record built from a violation/node pair. -/
def issueOf (violation : Violation) (node : RawNode)
    (screenInfo : ScreenInfo) (now : Nat) (lessonScanActive : Bool) : Issue :=
  { id := issueId violation.id node.target screenInfo.screenNumber now
    title := violation.help
    description := violation.description
    severity := mapSeverity violation.impact
    category := "a11y"
    type := violation.id
    wcagLevel := extractWcagLevel violation.tags
    element := node.html
    selector := String.intercalate ", " node.target
    wcagReference := violation.helpUrl
    screenInfo :=
      { screenNumber := screenInfo.screenNumber
        title := screenInfo.title
        url := screenInfo.url
        timestamp := screenInfo.timestamp }
    isLessonResult := lessonScanActive }

/-- `processScanResults(results, screenInfo, criticalOnly)`: one issue per
node of each violation, in detection order; when `criticalOnly` is set,
violations whose impact is neither critical nor serious are skipped. -/
def processScanResults (results : AxeResults) (screenInfo : ScreenInfo)
    (criticalOnly : Bool) (now : Nat) (lessonScanActive : Bool) : List Issue :=
  results.violations.flatMap fun violation =>
    if criticalOnly && !(["critical", "serious"].contains violation.impact) then
      []
    else
      violation.nodes.map fun node =>
        issueOf violation node screenInfo now lessonScanActive

/-- One entry of the `screenData` ledger: the spread of the screenInfo plus
the issues found on that screen: `{ ...screenInfo, issues }`. -/
structure Screen where
  screenNumber : Nat
  title : String
  url : String
  timestamp : Nat
  selector : String
  issues : List Issue
deriving DecidableEq, Repr

/-- The lesson content script's module-level state: `lessonScanActive`,
`currentScreen`, `screenData`, `lastUrl`, `lastTitle`,
`screenChangeTimeout` (the pending debounce timer, as its scheduled fire
instant). -/
structure ContentState where
  lessonScanActive : Bool
  currentScreen : Nat
  screenData : List Screen
  lastUrl : String
  lastTitle : String
  screenChangeTimeout : Option Nat
deriving DecidableEq, Repr

/-- Outcome of asking the axe engine to audit the current document:
the library is missing (`!window.axe`), the `axe.run` callback received an
error, or it produced results. -/
inductive AxeOutcome where
  | unavailable : AxeOutcome
  | failed : AxeOutcome
  | ok : AxeResults → AxeOutcome
deriving DecidableEq, Repr

/-- The live document as a scan sees it: current url and title, the axe
outcome an audit of it would produce, and the clock reading. -/
structure Page where
  url : String
  title : String
  axe : AxeOutcome
  now : Nat
deriving DecidableEq, Repr

/-- `getScreenInfo()` evaluated against page `pg` while the counter is
`st.currentScreen`. -/
def getScreenInfo (st : ContentState) (pg : Page) : ScreenInfo :=
  { screenNumber := st.currentScreen
    title := pg.title
    url := pg.url
    timestamp := pg.now
    selector := "body" }

/-- The `screenData.findIndex`/replace-else-push update of
`scanCurrentScreen`: replace the first entry with the same screenNumber in
place, otherwise append at the end. -/
def upsertScreen (l : List Screen) (s : Screen) : List Screen :=
  match l with
  | [] => [s]
  | x :: xs =>
      if x.screenNumber = s.screenNumber then s :: xs
      else x :: upsertScreen xs s

/-- `scanCurrentScreen()`: bail out when the session is inactive or axe is
unavailable; on an `axe.run` callback error, log and resolve without
recording anything; on success, process the results (criticalOnly = true)
and store the screen record via findIndex/replace-or-push. -/
def scanCurrentScreen (st : ContentState) (pg : Page) : ContentState :=
  if !st.lessonScanActive then st
  else
    match pg.axe with
    | AxeOutcome.unavailable => st
    | AxeOutcome.failed => st
    | AxeOutcome.ok results =>
        let screenInfo := getScreenInfo st pg
        let issues := processScanResults results screenInfo true pg.now
          st.lessonScanActive
        { st with
            screenData := upsertScreen st.screenData
              { screenNumber := screenInfo.screenNumber
                title := screenInfo.title
                url := screenInfo.url
                timestamp := screenInfo.timestamp
                selector := screenInfo.selector
                issues := issues } }

/-- `detectScreenChange()`: when the page url or title differs from the last
recorded ones, increment the screen counter and scan (only while the lesson
scan is active), then record the new url and title. -/
def detectScreenChange (st : ContentState) (pg : Page) : ContentState :=
  if pg.url != st.lastUrl || pg.title != st.lastTitle then
    let st1 :=
      if st.lessonScanActive then
        scanCurrentScreen { st with currentScreen := st.currentScreen + 1 } pg
      else st
    { st1 with lastUrl := pg.url, lastTitle := pg.title }
  else st

/-- Response shape of the lesson-scan command handlers. -/
structure CommandResponse where
  success : Bool
  message : String
deriving DecidableEq, Repr

/-- `handleStartLessonScan()`: unconditionally set lessonScanActive,
reset currentScreen to 1 and screenData to [], start monitoring, scan the
current screen, and answer success. -/
def handleStartLessonScan (st : ContentState) (pg : Page) :
    ContentState × CommandResponse :=
  let st1 := { st with
    lessonScanActive := true
    currentScreen := 1
    screenData := [] }
  (scanCurrentScreen st1 pg,
   { success := true, message := "Lesson scan started" })

/-- `getAllLessonIssues()`: concatenation of every screen's issues in ledger
order. -/
def getAllLessonIssues (screenData : List Screen) : List Issue :=
  screenData.flatMap fun screen => screen.issues

/-- The `severityCounts` object of `generateLessonSummary`. -/
structure SeverityCounts where
  critical : Nat
  serious : Nat
  moderate : Nat
  minor : Nat
deriving DecidableEq, Repr

/-- One entry of the summary's per-screen breakdown. -/
structure ScreenSummaryEntry where
  screenNumber : Nat
  title : String
  issuesCount : Nat
deriving DecidableEq, Repr

/-- The summary object of `generateLessonSummary`.
`averageIssuesPerScreen` is `Math.round(total / screens * 10) / 10` in the
source; the value stored here is the integer numerator
`Math.round(total / screens * 10)` so the field stays exact. -/
structure LessonSummary where
  totalScreens : Nat
  totalIssues : Nat
  severityCounts : SeverityCounts
  averageIssuesPerScreenTimesTen : Nat
  screenData : List ScreenSummaryEntry
deriving DecidableEq, Repr

/-- `Math.round(total / screens * 10)` over naturals:
`round(10t/s) = floor((20t + s) / (2s))`; the source divides by the screen
counter, which is at least 1 whenever a session has run (the s = 0 guard
covers what would be NaN in JavaScript). -/
def averageTimesTen (totalIssues screens : Nat) : Nat :=
  if screens = 0 then 0
  else (20 * totalIssues + screens) / (2 * screens)

/-- `generateLessonSummary()` evaluated against a ledger and the screen
counter. -/
def generateLessonSummary (screenData : List Screen) (currentScreen : Nat) :
    LessonSummary :=
  let allIssues := getAllLessonIssues screenData
  { totalScreens := currentScreen
    totalIssues := allIssues.length
    severityCounts :=
      { critical := (allIssues.filter fun i => i.severity = "critical").length
        serious := (allIssues.filter fun i => i.severity = "serious").length
        moderate := (allIssues.filter fun i => i.severity = "moderate").length
        minor := (allIssues.filter fun i => i.severity = "minor").length }
    averageIssuesPerScreenTimesTen := averageTimesTen allIssues.length currentScreen
    screenData := screenData.map fun screen =>
      { screenNumber := screen.screenNumber
        title := screen.title
        issuesCount := screen.issues.length } }

/-- The `lessonScanComplete` payload sent by `handleStopLessonScan` together
with its `sendResponse` flag. -/
structure StopSnapshot where
  success : Bool
  results : List Issue
  screenData : List Screen
  totalScreens : Nat
  summary : LessonSummary
deriving DecidableEq, Repr

/-- `handleStopLessonScan()`: clear lessonScanActive, stop monitoring
(clearing any pending debounce timer), and emit the final results computed
from the (unchanged) ledger and screen counter. -/
def handleStopLessonScan (st : ContentState) : ContentState × StopSnapshot :=
  let st1 := { st with
    lessonScanActive := false
    screenChangeTimeout := none }
  (st1,
   { success := true
     results := getAllLessonIssues st.screenData
     screenData := st.screenData
     totalScreens := st.currentScreen
     summary := generateLessonSummary st.screenData st.currentScreen })

/-- The module state right after script load: counter 1, empty ledger, last
url/title captured from the then-current page, no pending timer. -/
def initialContentState (pg : Page) : ContentState :=
  { lessonScanActive := false
    currentScreen := 1
    screenData := []
    lastUrl := pg.url
    lastTitle := pg.title
    screenChangeTimeout := none }

/-- A whole session: start on page `pg0`, then deliver each debounced
screen-change detection in order (each event carries the page state the
detector and scan observe at delivery time). -/
def runLessonScan (pg0 : Page) (events : List Page) : ContentState :=
  events.foldl detectScreenChange
    (handleStartLessonScan (initialContentState pg0) pg0).1

/-- Whether a page's audit would succeed. -/
def axeOk (pg : Page) : Bool :=
  match pg.axe with
  | AxeOutcome.ok _ => true
  | _ => false

/-- Every event in the list carries a url different from the previously
recorded one (so each delivery qualifies as a screen change). -/
def freshChain (lastUrl : String) : List Page → Bool
  | [] => true
  | pg :: rest => (pg.url != lastUrl) && freshChain pg.url rest

/-- Every event's audit succeeds. -/
def allAxeOk : List Page → Bool
  | [] => true
  | pg :: rest => axeOk pg && allAxeOk rest

/-- `config.defaultSettings.maxScreensPerLesson` from the enhanced config
(src/unnamed/part_001), documented there as "Prevent infinite scanning";
no code reads it. -/
def maxScreensPerLesson : Nat := 50

/-- The debounce pattern shared by all three observers of
`startScreenMonitoring`: a trigger at instant `t` with delay `d` clears any
pending timeout and schedules `detectScreenChange` at `t + d`; a pending
timeout whose instant has already passed when the next trigger arrives has
fired.  Input: qualifying triggers as (instant, delay) pairs in time order;
`pending` is the scheduled fire instant of the live timeout, if any.
Output: the instants at which `detectScreenChange` fires. -/
def debounceGo : List (Nat × Nat) → Option Nat → List Nat
  | [], none => []
  | [], some fireAt => [fireAt]
  | (t, d) :: rest, none => debounceGo rest (some (t + d))
  | (t, d) :: rest, some fireAt =>
      if fireAt ≤ t then fireAt :: debounceGo rest (some (t + d))
      else debounceGo rest (some (t + d))

/-- Fire instants produced by a burst of qualifying triggers, starting with
no pending timer. -/
def debounceRun (triggers : List (Nat × Nat)) : List Nat :=
  debounceGo triggers none

/-- The triggers following `(t, d)` each arrive strictly after the previous
one and strictly before the previous trigger's scheduled fire instant. -/
def coalescing : Nat → Nat → List (Nat × Nat) → Bool
  | _, _, [] => true
  | t, d, (t2, d2) :: rest =>
      decide (t < t2) && decide (t2 < t + d) && coalescing t2 d2 rest

/-- Scheduled fire instant of the last trigger of the burst. -/
def lastFireInstant : Nat → Nat → List (Nat × Nat) → Nat
  | t, d, [] => t + d
  | _, _, (t2, d2) :: rest => lastFireInstant t2 d2 rest

end Lesson

namespace Single

/-- One node of a raw issue in src/extension/src/content.js:
`{ html, target, failureSummary }` (shared by axe violations and heuristic
checks). -/
structure RawNode where
  html : String
  target : List String
  failureSummary : String
deriving DecidableEq, Repr

/-- One raw issue (`{ id, impact, nodes }`): an axe violation or a
heuristic UI/UX check result. -/
structure RawIssue where
  id : String
  impact : String
  nodes : List RawNode
deriving DecidableEq, Repr

/-- The axe results object consumed by `formatResults`. -/
structure AxeResults where
  violations : List RawIssue
deriving DecidableEq, Repr

/-- `mapImpact(impact)`: identity on the four known impacts, default
moderate. -/
def mapImpact (impact : String) : String :=
  if impact = "critical" then "critical"
  else if impact = "serious" then "serious"
  else if impact = "moderate" then "moderate"
  else if impact = "minor" then "minor"
  else "moderate"

/-- `axeTitle(id)` lookup table. -/
def axeTitle (id : String) : String :=
  if id = "color-contrast" then "Insufficient Color Contrast"
  else if id = "image-alt" then "Missing Image Alt Text"
  else if id = "aria-required-attr" then "Missing Required ARIA Attributes"
  else if id = "aria-roles" then "Invalid ARIA Role"
  else if id = "button-name" then "Button Has No Discernible Text"
  else if id = "document-title" then "Document Must Have Title"
  else if id = "duplicate-id" then "Duplicate ID Attribute"
  else if id = "frame-title" then "Frame Missing Title"
  else if id = "html-has-lang" then "HTML Element Missing Lang Attribute"
  else if id = "label" then "Form Element Has No Label"
  else if id = "link-name" then "Link Has No Discernible Text"
  else "Accessibility Issue: " ++ id

/-- `uxTitle(id)` lookup table. -/
def uxTitle (id : String) : String :=
  if id = "touch-target-size" then "Touch Target Too Small"
  else if id = "content-overflow" then "Content Overflow on Small Screens"
  else if id = "font-size-too-small" then "Font Size Too Small"
  else if id = "element-overlap" then "Overlapping Elements"
  else if id = "fixed-header-obscuring" then "Fixed Header Obscures Content"
  else if id = "viewport-width" then "Content Wider Than Viewport"
  else if id = "layout-shift" then "Layout Instability (CLS)"
  else if id = "lcp" then "Largest Contentful Paint Too Slow"
  else if id = "inp" then "Slow Interaction (INP)"
  else "UI/UX Issue: " ++ id

/-- `truncate(str, max)`: cut to `max` characters and append an ellipsis
when longer. -/
def truncate (str : String) (max : Nat) : String :=
  if str.length > max then (str.take max).push '…' else str

/-- The formatted issue record assembled by `formatResults` (the
`screenshot` and `aiSuggestion` fields, always null at this point, are not
carried). -/
structure FormattedIssue where
  id : String
  title : String
  description : String
  element : String
  selector : String
  severity : String
  category : String
  type : String
deriving DecidableEq, Repr

/-- `formatResults(axeRes, uxRes)`: axe violation nodes first, then
heuristic issue nodes, numbered sequentially `issue-1`, `issue-2`, ... in
that detection order (one record per node).  An absent `n.target[0]` is
modelled as the empty string. -/
def formatResults (axeRes : AxeResults) (uxRes : List RawIssue) :
    List FormattedIssue :=
  let axePairs := axeRes.violations.flatMap fun v => v.nodes.map fun n => (v, n)
  let uxPairs := uxRes.flatMap fun u => u.nodes.map fun n => (u, n)
  (axePairs.enum.map fun p =>
    { id := "issue-" ++ toString (p.1 + 1)
      title := axeTitle p.2.1.id
      description := p.2.2.failureSummary
      element := truncate p.2.2.html 80
      selector := p.2.2.target.headD ""
      severity := mapImpact p.2.1.impact
      category := "a11y"
      type := p.2.1.id })
  ++ (uxPairs.enum.map fun p =>
    { id := "issue-" ++ toString (axePairs.length + p.1 + 1)
      title := uxTitle p.2.1.id
      description := p.2.2.failureSummary
      element := truncate p.2.2.html 80
      selector := p.2.2.target.headD ""
      severity := mapImpact p.2.1.impact
      category := "uiux"
      type := p.2.1.id })

/-- What the `startScan` message handler publishes after
`performAccessibilityScan` settles: `scanComplete {results}` from the
`.then`, or `scanError {error}` from the `.catch`. -/
inductive ScanOutcome where
  | complete : List FormattedIssue → ScanOutcome
  | scanError : String → ScanOutcome
deriving DecidableEq, Repr

/-- `performAccessibilityScan()`: await `runAxeAnalysis()`, then await
`runUiUxChecks()`, then combine with `formatResults`.  A rejection of
either awaited pass propagates out of the async function and reaches the
message handler's `.catch`, which publishes `scanError` — there is no
per-pass recovery. -/
def performAccessibilityScan (axeRes : Except String AxeResults)
    (uxRes : Except String (List RawIssue)) : ScanOutcome :=
  match axeRes with
  | Except.error e => ScanOutcome.scanError e
  | Except.ok a =>
      match uxRes with
      | Except.error e => ScanOutcome.scanError e
      | Except.ok u => ScanOutcome.complete (formatResults a u)

/-- The results carried by an outcome: some list for `scanComplete`, none
for `scanError`. -/
def reportedIssues : ScanOutcome → Option (List FormattedIssue)
  | ScanOutcome.complete l => some l
  | ScanOutcome.scanError _ => none

/-- Bounding box of a clickable element as `getBoundingClientRect` reports
it (CSS pixel readings modelled as naturals). -/
structure Rect where
  width : Nat
  height : Nat
deriving DecidableEq, Repr

/-- One clickable element (`a`, `button`, `input[type=button]`,
`input[type=submit]`) as `runUiUxChecks` observes it: outer markup, the
selector `simpleSelector` computes for it, and its bounding box. -/
structure Clickable where
  outerHtml : String
  selector : String
  rect : Rect
deriving DecidableEq, Repr

/-- The document readings `runUiUxChecks` consumes: the clickables in
document order, the computed body font size, the document scroll width and
the window inner width (all px readings as naturals), plus the live
web-vitals issues collected so far (empty when the guarded dynamic loader
failed). -/
structure DomReadings where
  clickables : List Clickable
  bodyFontSize : Nat
  scrollWidth : Nat
  innerWidth : Nat
  liveUiIssues : List RawIssue
deriving DecidableEq, Repr

/-- `runUiUxChecks()`: touch targets smaller than 44x44, body font below
16px, horizontal overflow, then the drained live web-vitals issues. -/
def runUiUxChecks (dom : DomReadings) : List RawIssue :=
  let touchIssues := (dom.clickables.filter fun el =>
      el.rect.width < 44 || el.rect.height < 44).map fun el =>
    { id := "touch-target-size"
      impact := "moderate"
      nodes := [{ html := el.outerHtml
                  target := [el.selector]
                  failureSummary := "Touch target "
                    ++ toString el.rect.width ++ "x"
                    ++ toString el.rect.height
                    ++ " px; needs at least 44x44 px." }] }
  let fontIssues :=
    if dom.bodyFontSize < 16 then
      [{ id := "font-size-too-small"
         impact := "minor"
         nodes := [{ html := "body"
                     target := ["body"]
                     failureSummary := "Body font-size "
                       ++ toString dom.bodyFontSize
                       ++ "px; recommended at least 16 px." }] }]
    else []
  let overflowIssues :=
    if dom.scrollWidth > dom.innerWidth then
      [{ id := "viewport-width"
         impact := "minor"
         nodes := [{ html := ""
                     target := []
                     failureSummary := "Content width "
                       ++ toString dom.scrollWidth
                       ++ "px exceeds viewport "
                       ++ toString dom.innerWidth ++ "px." }] }]
    else []
  touchIssues ++ fontIssues ++ overflowIssues ++ dom.liveUiIssues

end Single

/-!  Concrete fixtures for the closed theorems below (sample pages and
violations exercising the embedded operations). -/

/-- A sample axe node for an image missing alt text. -/
def sampleNode : Lesson.RawNode :=
  { html := "<img src=hero.png>", target := ["img"] }

/-- A sample critical violation with one node. -/
def criticalViolation : Lesson.Violation :=
  { id := "image-alt"
    impact := "critical"
    help := "Images must have alternate text"
    description := "Ensures img elements have alternate text"
    tags := ["wcag2a"]
    helpUrl := "https://dequeuniversity.test/image-alt"
    nodes := [sampleNode] }

/-- A sample minor violation with one node. -/
def minorViolation : Lesson.Violation :=
  { id := "region"
    impact := "minor"
    help := "All page content should be contained by landmarks"
    description := "Ensures all page content is contained by landmarks"
    tags := ["best-practice"]
    helpUrl := "https://dequeuniversity.test/region"
    nodes := [{ html := "<p>stray</p>", target := ["p"] }] }

/-- Axe results with no violations. -/
def emptyResults : Lesson.AxeResults := { violations := [] }

/-- Axe results carrying one critical and one minor violation, in that
detection order. -/
def mixedResults : Lesson.AxeResults :=
  { violations := [criticalViolation, minorViolation] }

/-- Lesson screen `n` with a successful, issue-free audit. -/
def mkOkPage (n : Nat) : Lesson.Page :=
  { url := "https://lesson.test/s" ++ toString n
    title := "Screen " ++ toString n
    axe := Lesson.AxeOutcome.ok emptyResults
    now := n }

/-- Lesson screen 2 whose audit fails in the `axe.run` callback. -/
def failedPage2 : Lesson.Page :=
  { url := "https://lesson.test/s2"
    title := "Screen 2"
    axe := Lesson.AxeOutcome.failed
    now := 2 }

/-- A screenInfo for screen 1. -/
def screenOneInfo : Lesson.ScreenInfo :=
  { screenNumber := 1
    title := "Screen 1"
    url := "https://lesson.test/s1"
    timestamp := 0
    selector := "body" }

/-- A screenInfo for screen 1 with a different title and url (same
screenNumber). -/
def screenOneInfoAlt : Lesson.ScreenInfo :=
  { screenNumber := 1
    title := "Screen 1 (retitled)"
    url := "https://lesson.test/s1b"
    timestamp := 7
    selector := "body" }

/-- An issue recorded during a prior session. -/
def recordedIssue : Lesson.Issue :=
  Lesson.issueOf criticalViolation sampleNode screenOneInfo 0 true

/-- A ledger entry accumulated by a prior (still active) session. -/
def recordedScreen : Lesson.Screen :=
  { screenNumber := 1
    title := "Old screen"
    url := "https://lesson.test/old"
    timestamp := 0
    selector := "body"
    issues := [recordedIssue] }

/-- Module state of an active session holding accumulated data. -/
def activeState : Lesson.ContentState :=
  { lessonScanActive := true
    currentScreen := 1
    screenData := [recordedScreen]
    lastUrl := "https://lesson.test/old"
    lastTitle := "Old screen"
    screenChangeTimeout := none }

/-- An idle state agreeing with `activeState` only on the fields that
`handleStartLessonScan` does not overwrite. -/
def idleTwinState : Lesson.ContentState :=
  { lessonScanActive := false
    currentScreen := 42
    screenData := []
    lastUrl := "https://lesson.test/old"
    lastTitle := "Old screen"
    screenChangeTimeout := none }

/-- A fresh active state about to scan screen 1. -/
def freshActiveState : Lesson.ContentState :=
  { lessonScanActive := true
    currentScreen := 1
    screenData := []
    lastUrl := "https://lesson.test/s1"
    lastTitle := "Screen 1"
    screenChangeTimeout := none }

/-- A page for screen 1 whose audit returns `mixedResults`. -/
def mixedPage : Lesson.Page :=
  { url := "https://lesson.test/s1"
    title := "Screen 1"
    axe := Lesson.AxeOutcome.ok mixedResults
    now := 5 }

/-- The screen record `scanCurrentScreen` stores for screen `n` when the
audit of page `pg` returns results `r` during an active session. -/
def scannedScreen (n : Nat) (pg : Lesson.Page) (r : Lesson.AxeResults) :
    Lesson.Screen :=
  { screenNumber := n
    title := pg.title
    url := pg.url
    timestamp := pg.now
    selector := "body"
    issues := Lesson.processScanResults r
      { screenNumber := n
        title := pg.title
        url := pg.url
        timestamp := pg.now
        selector := "body" } true pg.now true }

/-- Single-scan axe results with one nonempty violation. -/
def singleAxeSample : Single.AxeResults :=
  { violations :=
      [{ id := "image-alt"
         impact := "critical"
         nodes := [{ html := "<img src=hero.png>"
                     target := ["img"]
                     failureSummary := "Images must have alternate text" }] }] }

/-!  Theorems.  Helper lemmas come first, then one theorem per claim (with
its witness or counterexample where required). -/

theorem upsertScreen_map_of_mem (l : List Lesson.Screen) (s : Lesson.Screen)
    (h : s.screenNumber ∈ l.map Lesson.Screen.screenNumber) :
    (Lesson.upsertScreen l s).map Lesson.Screen.screenNumber
      = l.map Lesson.Screen.screenNumber := by
  induction l with
  | nil => simp at h
  | cons x xs ih =>
      simp only [List.map_cons, List.mem_cons] at h
      by_cases hx : x.screenNumber = s.screenNumber
      · simp [Lesson.upsertScreen, hx]
      · have hmem : s.screenNumber ∈ xs.map Lesson.Screen.screenNumber := by
          rcases h with h | h
          · exact absurd h.symm hx
          · exact h
        simp [Lesson.upsertScreen, hx, ih hmem]

theorem upsertScreen_map_of_not_mem (l : List Lesson.Screen) (s : Lesson.Screen)
    (h : s.screenNumber ∉ l.map Lesson.Screen.screenNumber) :
    (Lesson.upsertScreen l s).map Lesson.Screen.screenNumber
      = l.map Lesson.Screen.screenNumber ++ [s.screenNumber] := by
  induction l with
  | nil => simp [Lesson.upsertScreen]
  | cons x xs ih =>
      simp only [List.map_cons, List.mem_cons, not_or] at h
      obtain ⟨hx, hxs⟩ := h
      have hx' : ¬ x.screenNumber = s.screenNumber := fun hh => hx hh.symm
      simp [Lesson.upsertScreen, hx', ih hxs]

theorem upsertScreen_nodup (l : List Lesson.Screen) (s : Lesson.Screen)
    (h : (l.map Lesson.Screen.screenNumber).Nodup) :
    ((Lesson.upsertScreen l s).map Lesson.Screen.screenNumber).Nodup := by
  by_cases hm : s.screenNumber ∈ l.map Lesson.Screen.screenNumber
  · rw [upsertScreen_map_of_mem l s hm]; exact h
  · rw [upsertScreen_map_of_not_mem l s hm]
    simp [List.nodup_append, h, List.disjoint_singleton, hm]

/-- C8: stop is idempotent: for every session state, calling stop twice in
a row is equivalent to calling it once — the state and the emitted snapshot
(screen data, screen count, computed summary) after the second call equal
those after the first, and the second call answers success (the frozen
session) rather than erroring. -/
theorem stop_twice_equals_stop_once (st : Lesson.ContentState) :
    (Lesson.handleStopLessonScan (Lesson.handleStopLessonScan st).1).1
      = (Lesson.handleStopLessonScan st).1
    ∧ (Lesson.handleStopLessonScan (Lesson.handleStopLessonScan st).1).2
      = (Lesson.handleStopLessonScan st).2
    ∧ (Lesson.handleStopLessonScan (Lesson.handleStopLessonScan st).1).2.success
      = true :=
  ⟨rfl, rfl, rfl⟩

/-- C10: every scan operation keeps the per-session ledger free of duplicate
screenNumbers, and when the screen being scanned already has a record the
ledger's screenNumber sequence is unchanged (the record is replaced in
place, not appended). -/
theorem scan_keeps_screen_numbers_unique (st : Lesson.ContentState)
    (pg : Lesson.Page)
    (h : (st.screenData.map Lesson.Screen.screenNumber).Nodup) :
    ((Lesson.scanCurrentScreen st pg).screenData.map
        Lesson.Screen.screenNumber).Nodup
    ∧ (st.currentScreen ∈ st.screenData.map Lesson.Screen.screenNumber →
        (Lesson.scanCurrentScreen st pg).screenData.map
            Lesson.Screen.screenNumber
          = st.screenData.map Lesson.Screen.screenNumber) := by
  unfold Lesson.scanCurrentScreen
  cases hb : st.lessonScanActive with
  | false => simpa [hb] using h
  | true =>
      cases hax : pg.axe with
      | unavailable => simpa [hb, hax] using h
      | failed => simpa [hb, hax] using h
      | ok r =>
          simp only [hb, hax, Bool.not_true, Bool.false_eq_true, if_false]
          constructor
          · exact upsertScreen_nodup st.screenData _ h
          · intro hmem
            exact upsertScreen_map_of_mem st.screenData _ hmem

/-- C10 witness: a ledger already holding screens 1 and 2 while screen 2 is
rescanned keeps the same screenNumber sequence. -/
theorem scan_keeps_screen_numbers_unique_witness :
    ((((Lesson.scanCurrentScreen
          { lessonScanActive := true
            currentScreen := 2
            screenData := [recordedScreen,
              { screenNumber := 2
                title := "Screen 2"
                url := "https://lesson.test/s2"
                timestamp := 1
                selector := "body"
                issues := [] }]
            lastUrl := "https://lesson.test/s2"
            lastTitle := "Screen 2"
            screenChangeTimeout := none }
          (mkOkPage 2)).screenData.map Lesson.Screen.screenNumber).Nodup)
      ∧ ((Lesson.scanCurrentScreen
          { lessonScanActive := true
            currentScreen := 2
            screenData := [recordedScreen,
              { screenNumber := 2
                title := "Screen 2"
                url := "https://lesson.test/s2"
                timestamp := 1
                selector := "body"
                issues := [] }]
            lastUrl := "https://lesson.test/s2"
            lastTitle := "Screen 2"
            screenChangeTimeout := none }
          (mkOkPage 2)).screenData.map Lesson.Screen.screenNumber
        = [1, 2])) := by
  have h := scan_keeps_screen_numbers_unique
    { lessonScanActive := true
      currentScreen := 2
      screenData := [recordedScreen,
        { screenNumber := 2
          title := "Screen 2"
          url := "https://lesson.test/s2"
          timestamp := 1
          selector := "body"
          issues := [] }]
      lastUrl := "https://lesson.test/s2"
      lastTitle := "Screen 2"
      screenChangeTimeout := none }
    (mkOkPage 2) (by decide)
  exact ⟨h.1, by rw [h.2 (by decide)]; decide⟩

theorem debounceGo_coalescing (rest : List (Nat × Nat)) :
    ∀ t d : Nat, Lesson.coalescing t d rest = true →
      Lesson.debounceGo rest (some (t + d))
        = [Lesson.lastFireInstant t d rest] := by
  induction rest with
  | nil => intro t d _; rfl
  | cons hd tl ih =>
      intro t d h
      obtain ⟨t2, d2⟩ := hd
      simp only [Lesson.coalescing, Bool.and_eq_true, decide_eq_true_eq] at h
      obtain ⟨⟨h1, h2⟩, h3⟩ := h
      show Lesson.debounceGo ((t2, d2) :: tl) (some (t + d))
        = [Lesson.lastFireInstant t2 d2 tl]
      unfold Lesson.debounceGo
      rw [if_neg (by omega)]
      exact ih t2 d2 h3

/-- C6: the shared clearTimeout/setTimeout slot of startScreenMonitoring is
a debounce, not a throttle: for every burst of qualifying triggers in which
each trigger arrives strictly before the pending delay elapses, exactly one
screen-change detection fires, at the last trigger's instant plus its
delay. -/
theorem debounce_burst_emits_single_detection (t d : Nat)
    (rest : List (Nat × Nat))
    (h : Lesson.coalescing t d rest = true) :
    Lesson.debounceRun ((t, d) :: rest)
      = [Lesson.lastFireInstant t d rest] := by
  show Lesson.debounceGo ((t, d) :: rest) none
    = [Lesson.lastFireInstant t d rest]
  unfold Lesson.debounceGo
  exact debounceGo_coalescing rest t d h

/-- C6 witness: a title change at t=0 and a second title mutation at
t=500ms, each with the 1000ms title debounce delay, produce exactly one
detection, at t=1500ms. -/
theorem debounce_burst_emits_single_detection_witness :
    Lesson.coalescing 0 1000 [(500, 1000)] = true
    ∧ Lesson.debounceRun [(0, 1000), (500, 1000)] = [1500] :=
  ⟨by decide, by
    have h := debounce_burst_emits_single_detection 0 1000 [(500, 1000)]
      (by decide)
    simpa using h⟩

/-- C9 counterexample: the rule-engine pass succeeds with a nonempty
violation list, the heuristic pass fails, and the scan publishes scanError
with no results — the rule-engine issues are not reported. -/
theorem heuristic_failure_blocks_axe_results :
    Single.performAccessibilityScan (Except.ok singleAxeSample)
        (Except.error "heuristics failed")
      = Single.ScanOutcome.scanError "heuristics failed"
    ∧ Single.reportedIssues
        (Single.performAccessibilityScan (Except.ok singleAxeSample)
          (Except.error "heuristics failed"))
      = none
    ∧ singleAxeSample.violations ≠ [] := by
  exact ⟨rfl, rfl, by decide⟩

/-- C9 amended: a failure of the heuristic UI/UX pass fails the whole scan
— the outcome is scanError and the successful rule-engine results are not
reported; results are reported exactly when both passes succeed. -/
theorem scan_reports_only_when_both_passes_succeed (a : Single.AxeResults)
    (e : String) (u : List Single.RawIssue) :
    Single.reportedIssues
        (Single.performAccessibilityScan (Except.ok a) (Except.error e))
      = none
    ∧ Single.performAccessibilityScan (Except.ok a) (Except.ok u)
      = Single.ScanOutcome.complete (Single.formatResults a u) :=
  ⟨rfl, rfl⟩

/-- C1 counterexample: normalizing the very same raw violation list for the
very same screen at two clock readings yields different issue ids — the id
template appends Date.now(), so it is not a function of
(ruleId, selector, screenNumber) alone. -/
theorem issue_id_changes_with_clock :
    (Lesson.processScanResults { violations := [criticalViolation] }
        screenOneInfo true 0 true).map Lesson.Issue.id
      ≠ (Lesson.processScanResults { violations := [criticalViolation] }
        screenOneInfo true 1 true).map Lesson.Issue.id := by decide

/-- C1 amended: issue id generation is a pure, deterministic function of
(ruleId, selector, screenNumber, Date.now() reading): normalizing the same
raw input for two screen contexts sharing a screenNumber at the same clock
reading yields identical ids — no other screen-context field enters the
id. -/
theorem issue_id_pure_given_clock (r : Lesson.AxeResults)
    (si1 si2 : Lesson.ScreenInfo) (co a : Bool) (now : Nat)
    (h : si1.screenNumber = si2.screenNumber) :
    (Lesson.processScanResults r si1 co now a).map Lesson.Issue.id
      = (Lesson.processScanResults r si2 co now a).map Lesson.Issue.id := by
  obtain ⟨vs⟩ := r
  induction vs with
  | nil => rfl
  | cons v rest ih =>
      simp only [Lesson.processScanResults, List.flatMap_cons, List.map_append]
        at ih ⊢
      rw [ih]
      congr 1
      split
      · rfl
      · simp [List.map_map, Function.comp_def, Lesson.issueOf, Lesson.issueId, h]

/-- C1 amended witness: same raw input, same screenNumber, same clock, two
different titles/urls — identical id lists. -/
theorem issue_id_pure_given_clock_witness :
    screenOneInfo.screenNumber = screenOneInfoAlt.screenNumber
    ∧ (Lesson.processScanResults mixedResults screenOneInfo true 3 true).map
        Lesson.Issue.id
      = (Lesson.processScanResults mixedResults screenOneInfoAlt true 3
          true).map Lesson.Issue.id :=
  ⟨rfl, issue_id_pure_given_clock mixedResults screenOneInfo screenOneInfoAlt
    true true 3 rfl⟩

/-- C4 counterexample: starting a lesson scan while one is Active succeeds
(is not rejected) and the new module state no longer contains the active
session's accumulated screen record — the data is silently discarded. -/
theorem start_while_active_discards_data :
    activeState.lessonScanActive = true
    ∧ (Lesson.handleStartLessonScan activeState (mkOkPage 9)).2.success = true
    ∧ recordedScreen
        ∉ (Lesson.handleStartLessonScan activeState (mkOkPage 9)).1.screenData := by
  refine ⟨rfl, rfl, ?_⟩
  decide

/-- C4 amended: starting while a session is Active is always accepted and
silently reinitializes the session: handleStartLessonScan overwrites
lessonScanActive, currentScreen and screenData unconditionally, so its
result is independent of the prior session's accumulated state. -/
theorem start_ignores_prior_session_state (st1 st2 : Lesson.ContentState)
    (pg : Lesson.Page)
    (hu : st1.lastUrl = st2.lastUrl)
    (ht : st1.lastTitle = st2.lastTitle)
    (ho : st1.screenChangeTimeout = st2.screenChangeTimeout) :
    Lesson.handleStartLessonScan st1 pg = Lesson.handleStartLessonScan st2 pg := by
  obtain ⟨a1, c1, s1, u1, t1, o1⟩ := st1
  obtain ⟨a2, c2, s2, u2, t2, o2⟩ := st2
  cases hu
  cases ht
  cases ho
  rfl

/-- C4 amended witness: an active session with data and an idle state with
none produce identical start results. -/
theorem start_ignores_prior_session_state_witness :
    Lesson.handleStartLessonScan activeState (mkOkPage 9)
      = Lesson.handleStartLessonScan idleTwinState (mkOkPage 9) :=
  start_ignores_prior_session_state activeState idleTwinState (mkOkPage 9)
    rfl rfl rfl

/-- C5 counterexample: screen 1 scans fine, screen 2's audit fails — the
run leaves no Screen record at all for screen 2 (no zero-issue
scanFailed-marked record), while the session stays active with the counter
advanced. -/
theorem failed_audit_records_no_screen :
    (Lesson.runLessonScan (mkOkPage 1) [failedPage2]).screenData.map
        Lesson.Screen.screenNumber = [1]
    ∧ (Lesson.runLessonScan (mkOkPage 1) [failedPage2]).lessonScanActive = true
    ∧ (Lesson.runLessonScan (mkOkPage 1) [failedPage2]).currentScreen = 2 := by
  decide

/-- C5 amended: when a single screen's audit fails during an Active
session, the session is not aborted — the coordinator stays active, the
screen counter advances and monitoring continues — but no Screen record is
created for that screen (the ledger is unchanged). -/
theorem failed_audit_continues_session_without_record
    (st : Lesson.ContentState) (pg : Lesson.Page)
    (hactive : st.lessonScanActive = true)
    (hfail : pg.axe = Lesson.AxeOutcome.failed)
    (hchange : (pg.url != st.lastUrl || pg.title != st.lastTitle) = true) :
    Lesson.detectScreenChange st pg
      = { st with
          currentScreen := st.currentScreen + 1
          lastUrl := pg.url
          lastTitle := pg.title } := by
  simp [Lesson.detectScreenChange, Lesson.scanCurrentScreen, hactive, hfail,
    hchange]

/-- C5 amended witness: the failing screen-2 event advances the counter and
changes nothing else. -/
theorem failed_audit_continues_session_without_record_witness :
    Lesson.detectScreenChange
        { activeState with lastUrl := "https://lesson.test/s1" } failedPage2
      = { activeState with
          currentScreen := 2
          lastUrl := failedPage2.url
          lastTitle := failedPage2.title } := by
  have h := failed_audit_continues_session_without_record
    { activeState with lastUrl := "https://lesson.test/s1" } failedPage2
    rfl rfl (by decide)
  simpa using h

/-- C7 counterexample: a raw violation list with two entries mapping to
severities critical and minor, normalized along the lesson-scan path
(criticalOnly = true), yields a screen whose issues list has exactly one
Issue — the minor entry is dropped, not preserved. -/
theorem critical_only_drops_minor_entry :
    ((Lesson.scanCurrentScreen freshActiveState mixedPage).screenData.map
        fun s => s.issues.length) = [1]
    ∧ ((Lesson.scanCurrentScreen freshActiveState mixedPage).screenData.map
        fun s => s.issues.map Lesson.Issue.severity) = [["critical"]]
    ∧ ((Lesson.scanCurrentScreen freshActiveState mixedPage).screenData.map
        fun s => s.issues.length) ≠ [2] := by
  decide

/-- C7 amended: normalization preserves detection order and maps engine
severities 1:1 — with filtering disabled every raw node yields an Issue
whose severity is the mapped impact, in detection order — but the
lesson-scan path runs with criticalOnly = true, which keeps exactly the
violations whose impact is critical or serious and drops the rest. -/
theorem normalization_preserves_order_and_filters_impact
    (r : Lesson.AxeResults) (si : Lesson.ScreenInfo) (now : Nat) (a : Bool) :
    ((Lesson.processScanResults r si false now a).map Lesson.Issue.severity
      = r.violations.flatMap fun v =>
          v.nodes.map fun _ => Lesson.mapSeverity v.impact)
    ∧ (Lesson.processScanResults r si true now a
      = Lesson.processScanResults
          { violations := r.violations.filter fun v =>
              ["critical", "serious"].contains v.impact }
          si false now a) := by
  obtain ⟨vs⟩ := r
  constructor
  · induction vs with
    | nil => rfl
    | cons v rest ih =>
        simp only [Lesson.processScanResults, List.flatMap_cons,
          List.map_append] at ih ⊢
        rw [ih]
        congr 1
        simp [List.map_map, Function.comp_def, Lesson.issueOf]
  · induction vs with
    | nil => rfl
    | cons v rest ih =>
        simp only [Lesson.processScanResults, List.flatMap_cons,
          List.filter_cons] at ih ⊢
        cases hc : (["critical", "serious"].contains v.impact) with
        | true =>
            simp only [hc, Bool.true_and, Bool.not_true, Bool.false_eq_true,
              if_false, if_true, List.flatMap_cons, Bool.false_and] at ih ⊢
            rw [ih]
        | false =>
            simp only [hc, Bool.true_and, Bool.not_false, if_true,
              Bool.false_eq_true, if_false, List.nil_append, Bool.false_and]
              at ih ⊢
            exact ih


theorem range'_one_concat (c : Nat) :
    List.range' 1 c ++ [c + 1] = List.range' 1 (c + 1) := by
  have h := @List.range'_concat 1 1 c
  simp only [one_mul] at h
  rw [h, Nat.add_comm 1 c]

theorem detectScreenChange_ok_step (st : Lesson.ContentState)
    (pg : Lesson.Page) (r : Lesson.AxeResults)
    (hactive : st.lessonScanActive = true)
    (hr : pg.axe = Lesson.AxeOutcome.ok r)
    (hfresh : (pg.url != st.lastUrl) = true) :
    Lesson.detectScreenChange st pg
      = { st with
          currentScreen := st.currentScreen + 1
          screenData := Lesson.upsertScreen st.screenData
            (scannedScreen (st.currentScreen + 1) pg r)
          lastUrl := pg.url
          lastTitle := pg.title } := by
  simp [Lesson.detectScreenChange, Lesson.scanCurrentScreen,
    Lesson.getScreenInfo, scannedScreen, hactive, hr, hfresh]

theorem foldl_detect_ok_fresh (events : List Lesson.Page) :
    ∀ st : Lesson.ContentState,
      st.lessonScanActive = true →
      Lesson.freshChain st.lastUrl events = true →
      Lesson.allAxeOk events = true →
      st.screenData.map Lesson.Screen.screenNumber
        = List.range' 1 st.currentScreen →
      (events.foldl Lesson.detectScreenChange st).screenData.map
          Lesson.Screen.screenNumber
        = List.range' 1 (st.currentScreen + events.length) := by
  induction events with
  | nil => intro st _ _ _ h4; simpa using h4
  | cons pg rest ih =>
      intro st h1 h2 h3 h4
      simp only [Lesson.freshChain, Bool.and_eq_true] at h2
      obtain ⟨hfresh, hrest⟩ := h2
      simp only [Lesson.allAxeOk, Bool.and_eq_true] at h3
      obtain ⟨hok, hokrest⟩ := h3
      obtain ⟨r, hr⟩ : ∃ r, pg.axe = Lesson.AxeOutcome.ok r := by
        cases hax : pg.axe with
        | unavailable => simp [Lesson.axeOk, hax] at hok
        | failed => simp [Lesson.axeOk, hax] at hok
        | ok r => exact ⟨r, rfl⟩
      have hnotmem : st.currentScreen + 1
          ∉ st.screenData.map Lesson.Screen.screenNumber := by
        rw [h4]
        intro hmem
        rw [List.mem_range'_1] at hmem
        omega
      rw [List.foldl_cons, detectScreenChange_ok_step st pg r h1 hr hfresh]
      have hmap : (Lesson.upsertScreen st.screenData
            (scannedScreen (st.currentScreen + 1) pg r)).map
            Lesson.Screen.screenNumber
          = List.range' 1 (st.currentScreen + 1) := by
        rw [upsertScreen_map_of_not_mem st.screenData _ hnotmem, h4]
        show List.range' 1 st.currentScreen ++ [st.currentScreen + 1] = _
        exact range'_one_concat st.currentScreen
      have hres := ih
        { st with
          currentScreen := st.currentScreen + 1
          screenData := Lesson.upsertScreen st.screenData
            (scannedScreen (st.currentScreen + 1) pg r)
          lastUrl := pg.url
          lastTitle := pg.title }
        h1 hrest hokrest hmap
      rw [hres]
      congr 1
      simp only [List.length_cons]
      omega

/-- C2 counterexample: screen 1 succeeds, the first screen-change event's
audit fails, the second succeeds — the screens ledger ends up with
screenNumbers [1, 3]: strictly increasing but with a gap at 2, so the
gap-free property fails for sequences containing a failed audit. -/
theorem failed_audit_creates_screen_number_gap :
    (Lesson.runLessonScan (mkOkPage 1) [failedPage2, mkOkPage 3]).screenData.map
        Lesson.Screen.screenNumber = [1, 3]
    ∧ (Lesson.runLessonScan (mkOkPage 1)
        [failedPage2, mkOkPage 3]).screenData.map
        Lesson.Screen.screenNumber ≠ [1, 2, 3] := by
  decide

/-- C2 amended: for every sequence of qualifying screen-change events
delivered while the session is Active in which every per-screen audit
succeeds, the screens ledger has strictly increasing, gap-free
screenNumbers starting at 1 (a failed audit instead skips its number,
leaving a gap). -/
theorem screen_numbers_gap_free_when_audits_succeed (pg0 : Lesson.Page)
    (events : List Lesson.Page)
    (h0 : Lesson.axeOk pg0 = true)
    (hfresh : Lesson.freshChain pg0.url events = true)
    (hok : Lesson.allAxeOk events = true) :
    (Lesson.runLessonScan pg0 events).screenData.map Lesson.Screen.screenNumber
      = List.range' 1 (events.length + 1) := by
  obtain ⟨r, hr⟩ : ∃ r, pg0.axe = Lesson.AxeOutcome.ok r := by
    cases hax : pg0.axe with
    | unavailable => simp [Lesson.axeOk, hax] at h0
    | failed => simp [Lesson.axeOk, hax] at h0
    | ok r => exact ⟨r, rfl⟩
  unfold Lesson.runLessonScan
  have hstart :
      (Lesson.handleStartLessonScan (Lesson.initialContentState pg0) pg0).1
      = { lessonScanActive := true
          currentScreen := 1
          screenData := [scannedScreen 1 pg0 r]
          lastUrl := pg0.url
          lastTitle := pg0.title
          screenChangeTimeout := none } := by
    simp [Lesson.handleStartLessonScan, Lesson.initialContentState,
      Lesson.scanCurrentScreen, Lesson.getScreenInfo, Lesson.upsertScreen,
      scannedScreen, hr]
  rw [hstart]
  have h := foldl_detect_ok_fresh events
    { lessonScanActive := true
      currentScreen := 1
      screenData := [scannedScreen 1 pg0 r]
      lastUrl := pg0.url
      lastTitle := pg0.title
      screenChangeTimeout := none }
    rfl hfresh hok rfl
  rw [h, Nat.add_comm 1 events.length]

/-- C2 amended witness: a start page and two fresh successful events give
the gap-free ledger [1, 2, 3]. -/
theorem screen_numbers_gap_free_when_audits_succeed_witness :
    Lesson.axeOk (mkOkPage 1) = true
    ∧ Lesson.freshChain (mkOkPage 1).url [mkOkPage 2, mkOkPage 3] = true
    ∧ Lesson.allAxeOk [mkOkPage 2, mkOkPage 3] = true
    ∧ (Lesson.runLessonScan (mkOkPage 1)
        [mkOkPage 2, mkOkPage 3]).screenData.map Lesson.Screen.screenNumber
      = List.range' 1 3 :=
  ⟨by decide, by decide, by decide,
    screen_numbers_gap_free_when_audits_succeed (mkOkPage 1)
      [mkOkPage 2, mkOkPage 3] (by decide) (by decide) (by decide)⟩

/-- C3: the maxScreens budget is never enforced: the enhanced config
declares defaultSettings.maxScreensPerLesson = 50 ("Prevent infinite
scanning") but no code reads it — five screen-change events after start
leave six recorded screens and a still-active session, with no
auto-stop. -/
theorem max_screens_budget_not_enforced :
    Lesson.maxScreensPerLesson = 50
    ∧ (Lesson.runLessonScan (mkOkPage 1)
        [mkOkPage 2, mkOkPage 3, mkOkPage 4, mkOkPage 5,
          mkOkPage 6]).screenData.map Lesson.Screen.screenNumber
      = [1, 2, 3, 4, 5, 6]
    ∧ (Lesson.runLessonScan (mkOkPage 1)
        [mkOkPage 2, mkOkPage 3, mkOkPage 4, mkOkPage 5,
          mkOkPage 6]).lessonScanActive = true := by
  decide
